import Mathlib

/-!
# bitunix-copier: order replication pipeline of `main.go`

Shallow embedding of `src/main.go`.  The program is a sequence of calls into an
external exchange-client library; every such call is recorded as an `Effect` in
a chronological trace, and its outcome is supplied by a `World`, which may make
the outcome depend on the whole history of effects so far.  Functions of the
program take the history before they run and return the effects they add.
-/

namespace BitunixCopier

/-- Go `float64`, kept as its IEEE-754 bit pattern; the program never computes
with these values, it only passes them on. -/
structure Float64 where
  bits : Nat
deriving DecidableEq, Repr

/-- Go `error` value, identified by the text of its `Error()` method. -/
structure GoError where
  msg : String
deriving DecidableEq, Repr

/-- Go's `fmt.Errorf(lead + "%v", cause)`: the new error's text is the literal lead
followed by the text of the cause. -/
def Errorf (lead : String) (cause : GoError) : GoError :=
  ⟨lead ++ cause.msg⟩

/-- The `Config` of `main.go`. -/
structure Config where
  SourceAPI : String
  SourceSecret : String
  DestAPI : String
  DestSecret : String
deriving DecidableEq, Repr

/-- The `bitunix.ApiClient`, as far as the program determines it: the credentials
given to `bitunix.NewApiClient`. -/
structure ApiClient where
  apiKey : String
  secretKey : String
deriving DecidableEq, Repr

/-- The `OrderCopier` of `main.go`. -/
structure OrderCopier where
  sourceClient : ApiClient
  destClient : ApiClient
  config : Config
deriving DecidableEq, Repr

/-- The `OrderHandler` of `main.go`. -/
structure OrderHandler where
  copier : OrderCopier
deriving DecidableEq, Repr

/-- The `model.OrderChannelMessage`: the fields of the source event that `main.go`
reads.  `Type_` is the Go field `Type`, a reserved word here. -/
structure OrderChannelMessage where
  Symbol : String
  Side : String
  Quantity : Float64
  Price : Float64
  Type_ : String
  Status : String
deriving DecidableEq, Repr

/-- Modelled from the spec: the position-intent constants of the external
`model` package (`model.SideOpen` is the one the program uses); a position is
either opened or closed. -/
inductive Side where
  | SideOpen
  | SideClose
deriving DecidableEq, Repr

/-- The external `bitunix` order builder, kept as the term of builder calls that
were made on it: nothing is assumed about what the library does with them. -/
inductive OrderBuilder where
  | NewOrderBuilder (symbol : String) (tradeSide : String) (side : Side) (qty : Float64)
  | WithOrderType (b : OrderBuilder) (orderType : String)
  | WithPrice (b : OrderBuilder) (price : Float64)
deriving DecidableEq, Repr

/-- Modelled from the spec: the Order Request of the data model (the type is
declared in the external library); it is what `Build` returns and what
`PlaceOrder` receives. -/
structure OrderRequest where
  symbol : String
  side : String
  quantity : Float64
  price : Float64
  type : String
  position_intent : Side
deriving DecidableEq, Repr

/-- Modelled from the spec: the acknowledgment that the exchange returns for a
placed order (the type is declared in the external library). -/
structure OrderResponse where
  orderId : String
deriving DecidableEq, Repr

/-- An argument of a formatted print. -/
inductive Arg where
  | str (s : String)
  | f64 (x : Float64)
  | event (order : OrderChannelMessage)
  | response (r : OrderResponse)
  | err (e : GoError)
deriving DecidableEq, Repr

/-- The observable actions of the program: prints, log lines and calls into the
external packages. -/
inductive Effect where
  | Printf (format : String) (args : List Arg)
  | Println (line : String)
  | LogPrintf (format : String) (args : List Arg)
  | LogFatal (line : String)
  | LogFatalf (format : String) (args : List Arg)
  | GodotenvLoad
  | NewApiClient (apiKey : String) (secretKey : String)
  | Build (b : OrderBuilder)
  | PlaceOrder (client : ApiClient) (order : OrderRequest)
  | NewPrivateWebsocket (apiKey : String) (secretKey : String)
  | Connect
  | SubscribeOrders (h : OrderHandler)
  | Stream
  | Disconnect
  | Cancel
deriving DecidableEq, Repr

/-- How the process ends: `main` returns, or `log.Fatal`/`log.Fatalf` calls
`os.Exit(1)`. -/
inductive ExitStatus where
  | returned
  | fatal
deriving DecidableEq, Repr

/-- The outcomes of everything outside `main.go`.  Each call receives the trace
of effects before it, so an outcome may depend on anything that happened
earlier.  `Getenv` is `os.Getenv` as `loadConfig` sees it, that is after
`godotenv.Load`.  `Stream` yields the events that the receive loop delivers, in
arrival order, and the value it finally returns. -/
structure World where
  Getenv : String → String
  GodotenvLoad : Option GoError
  ParseSymbol : String → String
  Build : List Effect → OrderBuilder → Except GoError OrderRequest
  PlaceOrder : List Effect → ApiClient → OrderRequest → Except GoError OrderResponse
  NewPrivateWebsocket : List Effect → String → String → Option GoError
  Connect : List Effect → Option GoError
  SubscribeOrders : List Effect → OrderHandler → Option GoError
  Stream : List Effect → List OrderChannelMessage × Option GoError

/-- The first line of `copyOrder`: the print that announces a copy. -/
def copyingLine (sourceOrder : OrderChannelMessage) : Effect :=
  Effect.Printf "Copying order: Symbol=%s, Side=%s, Quantity=%f, Price=%f\n"
    [Arg.str sourceOrder.Symbol, Arg.str sourceOrder.Side,
     Arg.f64 sourceOrder.Quantity, Arg.f64 sourceOrder.Price]

/-- The method `OrderCopier.copyOrder`: the effects it adds and the error it returns. -/
def copyOrder (w : World) (oc : OrderCopier) (hist : List Effect)
    (sourceOrder : OrderChannelMessage) : List Effect × Option GoError :=
  let p := copyingLine sourceOrder
  let orderBuilder :=
    OrderBuilder.WithPrice
      (OrderBuilder.WithOrderType
        (OrderBuilder.NewOrderBuilder (w.ParseSymbol sourceOrder.Symbol) sourceOrder.Side
          Side.SideOpen sourceOrder.Quantity)
        sourceOrder.Type_)
      sourceOrder.Price
  let b := Effect.Build orderBuilder
  match w.Build (hist ++ [p]) orderBuilder with
  | Except.error err => ([p, b], some (Errorf "failed to build order: " err))
  | Except.ok order =>
    let c := Effect.PlaceOrder oc.destClient order
    match w.PlaceOrder (hist ++ [p, b]) oc.destClient order with
    | Except.error err =>
      ([p, b, c], some (Errorf "failed to place order on destination account: " err))
    | Except.ok result =>
      ([p, b, c,
        Effect.Printf "Successfully copied order to destination account: %+v\n"
          [Arg.response result]], none)

/-- The method `OrderHandler.SubscribeOrder`: the effects of handling one event.  The Go
method has no result. -/
def SubscribeOrder (w : World) (h : OrderHandler) (hist : List Effect)
    (order : OrderChannelMessage) : List Effect :=
  let r := Effect.Printf "Received order: %+v\n" [Arg.event order]
  if order.Status = "NEW" ∨ order.Status = "PARTIALLY_FILLED" then
    let c := copyOrder w h.copier (hist ++ [r]) order
    match c.2 with
    | some err => r :: c.1 ++ [Effect.LogPrintf "Failed to copy order: %v" [Arg.err err]]
    | none => r :: c.1
  else
    [r]

/-- The function `NewOrderCopier`: two API clients are created; the error is always nil. -/
def NewOrderCopier (config : Config) : List Effect × OrderCopier × Option GoError :=
  let sourceClient : ApiClient := ⟨config.SourceAPI, config.SourceSecret⟩
  let destClient : ApiClient := ⟨config.DestAPI, config.DestSecret⟩
  ([Effect.NewApiClient config.SourceAPI config.SourceSecret,
    Effect.NewApiClient config.DestAPI config.DestSecret],
   { sourceClient := sourceClient, destClient := destClient, config := config },
   none)

/-- Modelled from the spec: the receive loop of the external `ws.Stream`, which
hands each received event to the registered handler, one at a time and in
arrival order. -/
def deliver (w : World) (h : OrderHandler) (hist : List Effect) :
    List OrderChannelMessage → List Effect
  | [] => []
  | order :: rest =>
    let t := SubscribeOrder w h hist order
    t ++ deliver w h (hist ++ t) rest

/-- The method `OrderCopier.startMonitoring`: the effects it adds and the error it returns.
`defer ws.Disconnect()` is registered once the websocket exists, so `Disconnect`
runs last on every path after that point. -/
def startMonitoring (w : World) (oc : OrderCopier) (hist : List Effect) :
    List Effect × Option GoError :=
  let n := Effect.NewPrivateWebsocket oc.config.SourceAPI oc.config.SourceSecret
  match w.NewPrivateWebsocket hist oc.config.SourceAPI oc.config.SourceSecret with
  | some err => ([n], some (Errorf "failed to create websocket: " err))
  | none =>
    let body : List Effect × Option GoError :=
      match w.Connect (hist ++ [n]) with
      | some err => ([Effect.Connect], some (Errorf "failed to connect websocket: " err))
      | none =>
        let orderHandler : OrderHandler := { copier := oc }
        let s := Effect.SubscribeOrders orderHandler
        match w.SubscribeOrders (hist ++ [n, Effect.Connect]) orderHandler with
        | some err =>
          ([Effect.Connect, s], some (Errorf "failed to subscribe to orders: " err))
        | none =>
          let l := Effect.Println "Started monitoring orders on source account..."
          let pre := [Effect.Connect, s, l, Effect.Stream]
          let st := w.Stream (hist ++ [n, Effect.Connect, s, l])
          (pre ++ deliver w orderHandler (hist ++ n :: pre) st.1, st.2)
    (n :: body.1 ++ [Effect.Disconnect], body.2)

/-- The function `getEnvOrDefault`. -/
def getEnvOrDefault (w : World) (key defaultValue : String) : String :=
  if w.Getenv key ≠ "" then w.Getenv key else defaultValue

/-- The function `loadConfig`. -/
def loadConfig (w : World) : Config :=
  { SourceAPI := getEnvOrDefault w "SOURCE_API_KEY" ""
    SourceSecret := getEnvOrDefault w "SOURCE_SECRET_KEY" ""
    DestAPI := getEnvOrDefault w "DEST_API_KEY" ""
    DestSecret := getEnvOrDefault w "DEST_SECRET_KEY" "" }

/-- The effects of `main` up to and including the loading of the environment. -/
def startup (w : World) : List Effect :=
  [Effect.Println "Starting Bitunix Order Copier...", Effect.GodotenvLoad] ++
    (match w.GodotenvLoad with
     | some _ => [Effect.Println "No .env file found, using system environment variables"]
     | none => [])

/-- The function `main`: the whole trace of a run and how the process ends.  The goroutine
that waits for a signal only cancels the context, which the world accounts for
in the outcome of `Stream`. -/
def main (w : World) : List Effect × ExitStatus :=
  let t0 := startup w
  let config := loadConfig w
  if config.SourceAPI = "" ∨ config.SourceSecret = "" ∨ config.DestAPI = "" ∨
      config.DestSecret = "" then
    (t0 ++ [Effect.LogFatal
      "Please set environment variables: SOURCE_API_KEY, SOURCE_SECRET_KEY, DEST_API_KEY, DEST_SECRET_KEY"],
     ExitStatus.fatal)
  else
    let c := NewOrderCopier config
    match c.2.2 with
    | some err =>
      (t0 ++ c.1 ++ [Effect.LogFatalf "Failed to create order copier: %v" [Arg.err err]],
       ExitStatus.fatal)
    | none =>
      let m := startMonitoring w c.2.1 (t0 ++ c.1)
      match m.2 with
      | some err =>
        (t0 ++ c.1 ++ m.1 ++ [Effect.LogFatalf "Failed to start monitoring: %v" [Arg.err err]],
         ExitStatus.fatal)
      | none =>
        (t0 ++ c.1 ++ m.1 ++ [Effect.Println "Order copier stopped", Effect.Cancel],
         ExitStatus.returned)

/-! ## Observations on a trace -/

/-- The submission attempts in a trace: the calls of `PlaceOrder`, in order. -/
def placeOrderCalls : List Effect → List (ApiClient × OrderRequest)
  | [] => []
  | Effect.PlaceOrder client order :: t => (client, order) :: placeOrderCalls t
  | _ :: t => placeOrderCalls t

/-- The builders on which `Build` was called, in order. -/
def buildCalls : List Effect → List OrderBuilder
  | [] => []
  | Effect.Build b :: t => b :: buildCalls t
  | _ :: t => buildCalls t

/-- The entries into `copyOrder` in a trace: its announcing prints, in order. -/
def copyAttempts (t : List Effect) : List Effect :=
  t.filter (fun e =>
    match e with
    | Effect.Printf format _ =>
      format = "Copying order: Symbol=%s, Side=%s, Quantity=%f, Price=%f\n"
    | _ => false)

/-- The events handed to `SubscribeOrder` in a trace: its first prints. -/
def receivedEvents (t : List Effect) : List OrderChannelMessage :=
  t.filterMap (fun e =>
    match e with
    | Effect.Printf format [Arg.event order] =>
      if format = "Received order: %+v\n" then some order else none
    | _ => none)

/-- Number of occurrences of an effect in a trace. -/
def occurrences (e : Effect) (t : List Effect) : Nat :=
  t.count e

/-- The effects that handling an event can add: prints, log lines, `Build` and
`PlaceOrder`. -/
def isHandlerEffect : Effect → Bool
  | Effect.Printf _ _ => true
  | Effect.LogPrintf _ _ => true
  | Effect.Build _ => true
  | Effect.PlaceOrder _ _ => true
  | _ => false

/-- The construction of an API client, which is all that `NewOrderCopier` does. -/
def isNewApiClient : Effect → Bool
  | Effect.NewApiClient _ _ => true
  | _ => false

/-- The creation of the websocket, which is the first action of
`startMonitoring`. -/
def isNewPrivateWebsocket : Effect → Bool
  | Effect.NewPrivateWebsocket _ _ => true
  | _ => false

/-- The copier that `main` constructs. -/
def mainCopier (w : World) : OrderCopier :=
  (NewOrderCopier (loadConfig w)).2.1

/-- The trace of `main` at the moment it calls `startMonitoring`. -/
def mainHistory (w : World) : List Effect :=
  startup w ++ (NewOrderCopier (loadConfig w)).1

/-- Creation of the websocket, connection and subscription all succeed when
`startMonitoring` runs for `oc` after `hist`. -/
def established (w : World) (oc : OrderCopier) (hist : List Effect) : Prop :=
  w.NewPrivateWebsocket hist oc.config.SourceAPI oc.config.SourceSecret = none ∧
  w.Connect
    (hist ++ [Effect.NewPrivateWebsocket oc.config.SourceAPI oc.config.SourceSecret]) = none ∧
  w.SubscribeOrders
    (hist ++ [Effect.NewPrivateWebsocket oc.config.SourceAPI oc.config.SourceSecret,
      Effect.Connect]) { copier := oc } = none

/-- The value that `ws.Stream` returns when `startMonitoring` runs for `oc`
after `hist` and reaches it. -/
def streamResult (w : World) (oc : OrderCopier) (hist : List Effect) : Option GoError :=
  (w.Stream
    (hist ++ [Effect.NewPrivateWebsocket oc.config.SourceAPI oc.config.SourceSecret,
      Effect.Connect, Effect.SubscribeOrders { copier := oc },
      Effect.Println "Started monitoring orders on source account..."])).2

/-- All four credentials are set in the environment that `loadConfig` reads. -/
def credentialsSet (w : World) : Prop :=
  w.Getenv "SOURCE_API_KEY" ≠ "" ∧ w.Getenv "SOURCE_SECRET_KEY" ≠ "" ∧
  w.Getenv "DEST_API_KEY" ≠ "" ∧ w.Getenv "DEST_SECRET_KEY" ≠ ""

/-- The filter condition of `SubscribeOrder`. -/
def actionable (order : OrderChannelMessage) : Bool :=
  order.Status = "NEW" ∨ order.Status = "PARTIALLY_FILLED"

/-! ## Sample runs -/

/-- A sample reading of a builder term: later calls override earlier ones. -/
def sampleRequest : OrderBuilder → OrderRequest
  | OrderBuilder.NewOrderBuilder symbol tradeSide side qty =>
    { symbol := symbol, side := tradeSide, quantity := qty, price := ⟨0⟩, type := "",
      position_intent := side }
  | OrderBuilder.WithOrderType b orderType => { sampleRequest b with type := orderType }
  | OrderBuilder.WithPrice b price => { sampleRequest b with price := price }

/-- Scenario 1 of the spec: a new limit order (1.5 and 30000 as bit patterns). -/
def newEvent : OrderChannelMessage :=
  { Symbol := "BTCUSDT", Side := "BUY", Quantity := ⟨4609434218613702656⟩,
    Price := ⟨4673975551164153856⟩, Type_ := "LIMIT", Status := "NEW" }

/-- Scenario 2 of the spec: the same order once it is filled. -/
def filledEvent : OrderChannelMessage :=
  { newEvent with Status := "FILLED" }

/-- A partial fill of the same order. -/
def secondFillEvent : OrderChannelMessage :=
  { newEvent with Status := "PARTIALLY_FILLED" }

/-- A world in which every external call succeeds and the stream delivers three
events before it ends without error. -/
def sampleWorld : World :=
  { Getenv := fun key => "value-of-" ++ key
    GodotenvLoad := none
    ParseSymbol := fun s => s
    Build := fun _ b => Except.ok (sampleRequest b)
    PlaceOrder := fun _ _ order => Except.ok ⟨"id-" ++ order.symbol⟩
    NewPrivateWebsocket := fun _ _ _ => none
    Connect := fun _ => none
    SubscribeOrders := fun _ _ => none
    Stream := fun _ => ([newEvent, filledEvent, secondFillEvent], none) }

/-- A copier with sample credentials. -/
def sampleCopier : OrderCopier :=
  { sourceClient := ⟨"src-key", "src-secret"⟩
    destClient := ⟨"dst-key", "dst-secret"⟩
    config := { SourceAPI := "src-key", SourceSecret := "src-secret",
                DestAPI := "dst-key", DestSecret := "dst-secret" } }

/-- The handler that `startMonitoring` registers for the sample copier. -/
def sampleHandler : OrderHandler :=
  { copier := sampleCopier }

/-- The sample world, except that the builder rejects every order. -/
def buildFailsWorld : World :=
  { sampleWorld with Build := fun _ _ => Except.error ⟨"invalid trade side"⟩ }

/-- The sample world, except that the destination rejects every order. -/
def placeFailsWorld : World :=
  { sampleWorld with PlaceOrder := fun _ _ _ => Except.error ⟨"insufficient balance"⟩ }

/-- The sample world, except that the destination key is not set. -/
def missingKeyWorld : World :=
  { sampleWorld with Getenv := fun key => if key = "DEST_API_KEY" then "" else "value" }

/-- The sample world, except that the websocket cannot be created. -/
def createFailsWorld : World :=
  { sampleWorld with NewPrivateWebsocket := fun _ _ _ => some ⟨"bad credentials"⟩ }

/-- The sample world, except that the websocket cannot connect. -/
def connectFailsWorld : World :=
  { sampleWorld with Connect := fun _ => some ⟨"dial timeout"⟩ }

/-- The sample world, except that the subscription is refused. -/
def subscribeFailsWorld : World :=
  { sampleWorld with SubscribeOrders := fun _ _ => some ⟨"subscription refused"⟩ }

/-- The sample world, except that the stream ends with a transport error. -/
def streamFailsWorld : World :=
  { sampleWorld with Stream := fun _ => ([newEvent], some ⟨"connection reset"⟩) }

/-! ## Lemmas on traces -/

theorem placeOrderCalls_append (a b : List Effect) :
    placeOrderCalls (a ++ b) = placeOrderCalls a ++ placeOrderCalls b := by
  induction a with
  | nil => rfl
  | cons e t ih => cases e <;> simp [placeOrderCalls, ih]

theorem buildCalls_append (a b : List Effect) :
    buildCalls (a ++ b) = buildCalls a ++ buildCalls b := by
  induction a with
  | nil => rfl
  | cons e t ih => cases e <;> simp [buildCalls, ih]

theorem copyAttempts_append (a b : List Effect) :
    copyAttempts (a ++ b) = copyAttempts a ++ copyAttempts b := by
  simp [copyAttempts]

/-- The three shapes of a run of `copyOrder`. -/
theorem copyOrder_cases (w : World) (oc : OrderCopier) (hist : List Effect)
    (o : OrderChannelMessage) :
    (∃ err, copyOrder w oc hist o =
        ([copyingLine o,
          Effect.Build (OrderBuilder.WithPrice (OrderBuilder.WithOrderType
            (OrderBuilder.NewOrderBuilder (w.ParseSymbol o.Symbol) o.Side Side.SideOpen
              o.Quantity) o.Type_) o.Price)],
         some (Errorf "failed to build order: " err))) ∨
    (∃ order err, copyOrder w oc hist o =
        ([copyingLine o,
          Effect.Build (OrderBuilder.WithPrice (OrderBuilder.WithOrderType
            (OrderBuilder.NewOrderBuilder (w.ParseSymbol o.Symbol) o.Side Side.SideOpen
              o.Quantity) o.Type_) o.Price),
          Effect.PlaceOrder oc.destClient order],
         some (Errorf "failed to place order on destination account: " err))) ∨
    (∃ order result, copyOrder w oc hist o =
        ([copyingLine o,
          Effect.Build (OrderBuilder.WithPrice (OrderBuilder.WithOrderType
            (OrderBuilder.NewOrderBuilder (w.ParseSymbol o.Symbol) o.Side Side.SideOpen
              o.Quantity) o.Type_) o.Price),
          Effect.PlaceOrder oc.destClient order,
          Effect.Printf "Successfully copied order to destination account: %+v\n"
            [Arg.response result]],
         none)) := by
  unfold copyOrder
  simp only []
  split
  · exact Or.inl ⟨_, rfl⟩
  · split
    · exact Or.inr (Or.inl ⟨_, _, rfl⟩)
    · exact Or.inr (Or.inr ⟨_, _, rfl⟩)

theorem copyAttempts_copyOrder (w : World) (oc : OrderCopier) (hist : List Effect)
    (o : OrderChannelMessage) :
    copyAttempts (copyOrder w oc hist o).1 = [copyingLine o] := by
  rcases copyOrder_cases w oc hist o with ⟨e, h⟩ | ⟨r, e, h⟩ | ⟨r, x, h⟩ <;>
    simp [h, copyAttempts, copyingLine]

theorem copyAttempts_SubscribeOrder (w : World) (h : OrderHandler) (hist : List Effect)
    (o : OrderChannelMessage) :
    copyAttempts (SubscribeOrder w h hist o) =
      if o.Status = "NEW" ∨ o.Status = "PARTIALLY_FILLED" then [copyingLine o] else [] := by
  unfold SubscribeOrder
  by_cases hs : o.Status = "NEW" ∨ o.Status = "PARTIALLY_FILLED"
  · simp only [hs, if_true]
    have hc := copyAttempts_copyOrder w h.copier
      (hist ++ [Effect.Printf "Received order: %+v\n" [Arg.event o]]) o
    cases hr : (copyOrder w h.copier
      (hist ++ [Effect.Printf "Received order: %+v\n" [Arg.event o]]) o).2 with
    | none =>
      simp only []
      rw [← List.singleton_append, copyAttempts_append, hc]
      simp [copyAttempts]
    | some err =>
      simp only []
      rw [← List.singleton_append, List.append_assoc, copyAttempts_append,
        copyAttempts_append, hc]
      simp [copyAttempts]
  · simp only [hs, if_false]
    simp [copyAttempts]

theorem placeOrderCalls_copyOrder_le (w : World) (oc : OrderCopier) (hist : List Effect)
    (o : OrderChannelMessage) :
    (placeOrderCalls (copyOrder w oc hist o).1).length ≤ 1 := by
  rcases copyOrder_cases w oc hist o with ⟨e, h⟩ | ⟨r, e, h⟩ | ⟨r, x, h⟩ <;>
    simp [h, placeOrderCalls, copyingLine]

theorem placeOrderCalls_SubscribeOrder (w : World) (h : OrderHandler) (hist : List Effect)
    (o : OrderChannelMessage) :
    placeOrderCalls (SubscribeOrder w h hist o) =
      if o.Status = "NEW" ∨ o.Status = "PARTIALLY_FILLED" then
        placeOrderCalls
          (copyOrder w h.copier (hist ++ [Effect.Printf "Received order: %+v\n" [Arg.event o]])
            o).1
      else [] := by
  unfold SubscribeOrder
  by_cases hs : o.Status = "NEW" ∨ o.Status = "PARTIALLY_FILLED"
  · simp only [hs, if_true]
    cases hr : (copyOrder w h.copier
      (hist ++ [Effect.Printf "Received order: %+v\n" [Arg.event o]]) o).2 with
    | none => simp [placeOrderCalls]
    | some err =>
      simp only []
      rw [← List.singleton_append, List.append_assoc, placeOrderCalls_append,
        placeOrderCalls_append]
      simp [placeOrderCalls]
  · simp only [hs, if_false]
    simp [placeOrderCalls]

theorem receivedEvents_append (a b : List Effect) :
    receivedEvents (a ++ b) = receivedEvents a ++ receivedEvents b := by
  simp [receivedEvents]

theorem receivedEvents_copyOrder (w : World) (oc : OrderCopier) (hist : List Effect)
    (o : OrderChannelMessage) :
    receivedEvents (copyOrder w oc hist o).1 = [] := by
  rcases copyOrder_cases w oc hist o with ⟨e, h⟩ | ⟨r, e, h⟩ | ⟨r, x, h⟩ <;>
    simp [h, receivedEvents, copyingLine]

theorem receivedEvents_SubscribeOrder (w : World) (h : OrderHandler) (hist : List Effect)
    (o : OrderChannelMessage) :
    receivedEvents (SubscribeOrder w h hist o) = [o] := by
  unfold SubscribeOrder
  have hc := receivedEvents_copyOrder w h.copier
    (hist ++ [Effect.Printf "Received order: %+v\n" [Arg.event o]]) o
  simp only []
  split
  · split
    · rw [← List.singleton_append, List.append_assoc, receivedEvents_append,
        receivedEvents_append, hc]
      simp [receivedEvents]
    · rw [← List.singleton_append, receivedEvents_append, hc]
      simp [receivedEvents]
  · simp [receivedEvents]

theorem deliver_append (w : World) (h : OrderHandler) (es1 es2 : List OrderChannelMessage) :
    ∀ hist : List Effect, deliver w h hist (es1 ++ es2) =
      deliver w h hist es1 ++ deliver w h (hist ++ deliver w h hist es1) es2 := by
  induction es1 with
  | nil => intro hist; simp [deliver]
  | cons o rest ih =>
    intro hist
    rw [List.cons_append]
    simp only [deliver]
    rw [ih]
    simp only [List.append_assoc]

/-! ## The claims -/

/-- C1: `SubscribeOrder` enters `copyOrder` (whose first action is the print
that announces the copy) if and only if the status of the event is exactly
`NEW` or `PARTIALLY_FILLED`; for an event of any other status it does nothing
but print the event, so `Build` and `PlaceOrder` are not called at all. -/
theorem SubscribeOrder_copies_iff_actionable (w : World) (h : OrderHandler)
    (hist : List Effect) (o : OrderChannelMessage) :
    (copyAttempts (SubscribeOrder w h hist o) = [copyingLine o] ↔
      (o.Status = "NEW" ∨ o.Status = "PARTIALLY_FILLED")) ∧
    (¬ (o.Status = "NEW" ∨ o.Status = "PARTIALLY_FILLED") →
      SubscribeOrder w h hist o = [Effect.Printf "Received order: %+v\n" [Arg.event o]] ∧
      copyAttempts (SubscribeOrder w h hist o) = [] ∧
      buildCalls (SubscribeOrder w h hist o) = [] ∧
      placeOrderCalls (SubscribeOrder w h hist o) = []) := by
  refine ⟨?_, ?_⟩
  · rw [copyAttempts_SubscribeOrder]
    by_cases hs : o.Status = "NEW" ∨ o.Status = "PARTIALLY_FILLED"
    · simp [hs]
    · simp [hs]
  · intro hs
    have hS : SubscribeOrder w h hist o =
        [Effect.Printf "Received order: %+v\n" [Arg.event o]] := by
      unfold SubscribeOrder
      simp only [hs, if_false]
    rw [hS]
    simp [copyAttempts, buildCalls, placeOrderCalls]

/-- Witness of C1 at a `FILLED` event: nothing is submitted. -/
theorem SubscribeOrder_copies_iff_actionable_witness :
    ¬ (filledEvent.Status = "NEW" ∨ filledEvent.Status = "PARTIALLY_FILLED") ∧
    placeOrderCalls (SubscribeOrder sampleWorld sampleHandler [] filledEvent) = [] :=
  ⟨by decide,
   ((SubscribeOrder_copies_iff_actionable sampleWorld sampleHandler [] filledEvent).2
      (by decide)).2.2.2⟩

/-- C2, counterexample: a `NEW` event whose order the builder rejects is handled
with no call of `PlaceOrder`, not with exactly one. -/
theorem SubscribeOrder_no_submission_when_build_fails :
    (newEvent.Status = "NEW" ∨ newEvent.Status = "PARTIALLY_FILLED") ∧
    (placeOrderCalls (SubscribeOrder buildFailsWorld sampleHandler [] newEvent)).length = 0 ∧
    (placeOrderCalls (SubscribeOrder buildFailsWorld sampleHandler [] newEvent)).length ≠ 1 := by
  decide

/-- C2, amended: for an event of status `NEW` or `PARTIALLY_FILLED`, when `Build`
succeeds the handling makes exactly one call of `PlaceOrder`, on the destination
client and with the request that `Build` returned, whatever `PlaceOrder` then
answers; when `Build` returns an error it makes none. -/
theorem SubscribeOrder_submits_once_when_built (w : World) (h : OrderHandler)
    (hist : List Effect) (o : OrderChannelMessage)
    (hs : o.Status = "NEW" ∨ o.Status = "PARTIALLY_FILLED") :
    (∀ order, w.Build
        (hist ++ [Effect.Printf "Received order: %+v\n" [Arg.event o]] ++ [copyingLine o])
        (OrderBuilder.WithPrice (OrderBuilder.WithOrderType
          (OrderBuilder.NewOrderBuilder (w.ParseSymbol o.Symbol) o.Side Side.SideOpen
            o.Quantity) o.Type_) o.Price) = Except.ok order →
      placeOrderCalls (SubscribeOrder w h hist o) = [(h.copier.destClient, order)]) ∧
    (∀ err, w.Build
        (hist ++ [Effect.Printf "Received order: %+v\n" [Arg.event o]] ++ [copyingLine o])
        (OrderBuilder.WithPrice (OrderBuilder.WithOrderType
          (OrderBuilder.NewOrderBuilder (w.ParseSymbol o.Symbol) o.Side Side.SideOpen
            o.Quantity) o.Type_) o.Price) = Except.error err →
      placeOrderCalls (SubscribeOrder w h hist o) = []) := by
  rw [placeOrderCalls_SubscribeOrder]
  simp only [hs, if_true]
  refine ⟨?_, ?_⟩
  · intro order hb
    unfold copyOrder
    simp only [hb]
    split <;> simp [placeOrderCalls, copyingLine]
  · intro err hb
    unfold copyOrder
    simp only [hb]
    simp [placeOrderCalls, copyingLine]

/-- Witness of the amended C2 in the sample world, where `Build` succeeds. -/
theorem SubscribeOrder_submits_once_when_built_witness :
    placeOrderCalls (SubscribeOrder sampleWorld sampleHandler [] newEvent) =
      [(sampleHandler.copier.destClient,
        { symbol := "BTCUSDT", side := "BUY", quantity := newEvent.Quantity,
          price := newEvent.Price, type := "LIMIT", position_intent := Side.SideOpen })] :=
  (SubscribeOrder_submits_once_when_built sampleWorld sampleHandler [] newEvent
    (by decide)).1 _ rfl

/-- C3: whatever the copier, the history and the outcomes of `Build` and
`PlaceOrder`, `copyOrder` calls `Build` exactly once, on the builder made by
`NewOrderBuilder(ParseSymbol(event.Symbol), event.Side, SideOpen, event.Quantity)`
followed by `WithOrderType(event.Type)` and `WithPrice(event.Price)`, the
quantity and the price being the event's own values; so two runs on the same
event build from the same inputs. -/
theorem copyOrder_builder_inputs (w : World) (oc oc2 : OrderCopier)
    (hist hist2 : List Effect) (o : OrderChannelMessage) :
    buildCalls (copyOrder w oc hist o).1 =
      [OrderBuilder.WithPrice
        (OrderBuilder.WithOrderType
          (OrderBuilder.NewOrderBuilder (w.ParseSymbol o.Symbol) o.Side Side.SideOpen
            o.Quantity)
          o.Type_)
        o.Price] ∧
    buildCalls (copyOrder w oc hist o).1 = buildCalls (copyOrder w oc2 hist2 o).1 := by
  have key : ∀ (c : OrderCopier) (t : List Effect),
      buildCalls (copyOrder w c t o).1 =
        [OrderBuilder.WithPrice (OrderBuilder.WithOrderType
          (OrderBuilder.NewOrderBuilder (w.ParseSymbol o.Symbol) o.Side Side.SideOpen
            o.Quantity) o.Type_) o.Price] := by
    intro c t
    rcases copyOrder_cases w c t o with ⟨e, h⟩ | ⟨r, e, h⟩ | ⟨r, x, h⟩ <;>
      simp [h, buildCalls, copyingLine]
  exact ⟨key oc hist, by rw [key oc hist, key oc2 hist2]⟩

/-- C4: for every world (every assignment of outcomes to `Build` and
`PlaceOrder`), every history and every finite sequence of events handed to
`SubscribeOrder` in arrival order, every event is handled, the copies attempted
are those of the events of status `NEW` or `PARTIALLY_FILLED`, in the same
order, and the events that follow a prefix are handled as a delivery of their
own.  `SubscribeOrder` yields effects only: it has no error to return. -/
theorem deliver_isolates_errors (w : World) (h : OrderHandler) (hist : List Effect)
    (es : List OrderChannelMessage) :
    copyAttempts (deliver w h hist es) = (es.filter actionable).map copyingLine ∧
    receivedEvents (deliver w h hist es) = es ∧
    (∀ es1 es2, es = es1 ++ es2 →
      deliver w h hist es =
        deliver w h hist es1 ++ deliver w h (hist ++ deliver w h hist es1) es2) := by
  refine ⟨?_, ?_, ?_⟩
  · induction es generalizing hist with
    | nil => simp [deliver, copyAttempts]
    | cons o rest ih =>
      simp only [deliver]
      rw [copyAttempts_append, ih, copyAttempts_SubscribeOrder]
      by_cases hs : o.Status = "NEW" ∨ o.Status = "PARTIALLY_FILLED"
      · simp [hs, actionable]
      · simp [hs, actionable]
  · induction es generalizing hist with
    | nil => simp [deliver, receivedEvents]
    | cons o rest ih =>
      simp only [deliver]
      rw [receivedEvents_append, ih, receivedEvents_SubscribeOrder]
      rfl
  · intro es1 es2 he
    rw [he]
    exact deliver_append w h es1 es2 hist

/-- Witness of C4: in a world whose destination rejects every order, the event
after a failed copy is still handled and copied. -/
theorem deliver_isolates_errors_witness :
    copyAttempts (deliver placeFailsWorld sampleHandler [] [newEvent, filledEvent, secondFillEvent]) =
      [copyingLine newEvent, copyingLine secondFillEvent] ∧
    deliver placeFailsWorld sampleHandler [] [newEvent, filledEvent, secondFillEvent] =
      deliver placeFailsWorld sampleHandler [] [newEvent] ++
        deliver placeFailsWorld sampleHandler
          ([] ++ deliver placeFailsWorld sampleHandler [] [newEvent])
          [filledEvent, secondFillEvent] :=
  ⟨(deliver_isolates_errors placeFailsWorld sampleHandler []
      [newEvent, filledEvent, secondFillEvent]).1,
   (deliver_isolates_errors placeFailsWorld sampleHandler []
      [newEvent, filledEvent, secondFillEvent]).2.2 [newEvent] [filledEvent, secondFillEvent] rfl⟩

/-- C5: when `Build` returns an error, `copyOrder` returns the error whose text
is `failed to build order: ` followed by the text of the cause, its effects are
the announcing print and the call of `Build` only, and `PlaceOrder` is not
called. -/
theorem copyOrder_build_error (w : World) (oc : OrderCopier) (hist : List Effect)
    (o : OrderChannelMessage) (err : GoError)
    (hb : w.Build (hist ++ [copyingLine o])
        (OrderBuilder.WithPrice (OrderBuilder.WithOrderType
          (OrderBuilder.NewOrderBuilder (w.ParseSymbol o.Symbol) o.Side Side.SideOpen
            o.Quantity) o.Type_) o.Price) = Except.error err) :
    (copyOrder w oc hist o).2 = some ⟨"failed to build order: " ++ err.msg⟩ ∧
    (copyOrder w oc hist o).1 =
      [copyingLine o,
       Effect.Build (OrderBuilder.WithPrice (OrderBuilder.WithOrderType
          (OrderBuilder.NewOrderBuilder (w.ParseSymbol o.Symbol) o.Side Side.SideOpen
            o.Quantity) o.Type_) o.Price)] ∧
    placeOrderCalls (copyOrder w oc hist o).1 = [] := by
  unfold copyOrder
  simp only [hb]
  simp [placeOrderCalls, copyingLine, Errorf]

/-- Witness of C5 in the world whose builder rejects every order. -/
theorem copyOrder_build_error_witness :
    (copyOrder buildFailsWorld sampleCopier [] newEvent).2 =
      some ⟨"failed to build order: invalid trade side"⟩ ∧
    placeOrderCalls (copyOrder buildFailsWorld sampleCopier [] newEvent).1 = [] :=
  ⟨(copyOrder_build_error buildFailsWorld sampleCopier [] newEvent ⟨"invalid trade side"⟩
      rfl).1,
   (copyOrder_build_error buildFailsWorld sampleCopier [] newEvent ⟨"invalid trade side"⟩
      rfl).2.2⟩

/-- C6: handling an event calls `PlaceOrder` at most once, whatever the outcomes
of `Build` and `PlaceOrder`; and when `PlaceOrder` fails, `copyOrder` returns
the error whose text is `failed to place order on destination account: `
followed by the text of the cause, having called `PlaceOrder` exactly once. -/
theorem copyOrder_no_retry (w : World) (h : OrderHandler) (oc : OrderCopier)
    (hist : List Effect) (o : OrderChannelMessage) :
    (placeOrderCalls (SubscribeOrder w h hist o)).length ≤ 1 ∧
    (placeOrderCalls (copyOrder w oc hist o).1).length ≤ 1 ∧
    (∀ order err,
      w.Build (hist ++ [copyingLine o])
        (OrderBuilder.WithPrice (OrderBuilder.WithOrderType
          (OrderBuilder.NewOrderBuilder (w.ParseSymbol o.Symbol) o.Side Side.SideOpen
            o.Quantity) o.Type_) o.Price) = Except.ok order →
      w.PlaceOrder
        (hist ++ [copyingLine o,
          Effect.Build (OrderBuilder.WithPrice (OrderBuilder.WithOrderType
            (OrderBuilder.NewOrderBuilder (w.ParseSymbol o.Symbol) o.Side Side.SideOpen
              o.Quantity) o.Type_) o.Price)])
        oc.destClient order = Except.error err →
      (copyOrder w oc hist o).2 =
        some ⟨"failed to place order on destination account: " ++ err.msg⟩ ∧
      placeOrderCalls (copyOrder w oc hist o).1 = [(oc.destClient, order)]) := by
  refine ⟨?_, placeOrderCalls_copyOrder_le w oc hist o, ?_⟩
  · rw [placeOrderCalls_SubscribeOrder]
    split
    · exact placeOrderCalls_copyOrder_le w h.copier _ o
    · simp
  · intro order err hb hp
    unfold copyOrder
    simp only [hb, hp]
    simp [placeOrderCalls, copyingLine, Errorf]

/-- Witness of C6 in the world whose destination rejects every order. -/
theorem copyOrder_no_retry_witness :
    (copyOrder placeFailsWorld sampleCopier [] newEvent).2 =
      some ⟨"failed to place order on destination account: insufficient balance"⟩ ∧
    placeOrderCalls (copyOrder placeFailsWorld sampleCopier [] newEvent).1 =
      [(sampleCopier.destClient, sampleRequest
        (OrderBuilder.WithPrice (OrderBuilder.WithOrderType
          (OrderBuilder.NewOrderBuilder "BTCUSDT" "BUY" Side.SideOpen newEvent.Quantity)
          "LIMIT") newEvent.Price))] :=
  (copyOrder_no_retry placeFailsWorld sampleHandler sampleCopier [] newEvent).2.2 _
    ⟨"insufficient balance"⟩ rfl rfl

/-! ## Lemmas on `startMonitoring` and `main` -/

theorem getEnvOrDefault_empty (w : World) (key : String) :
    getEnvOrDefault w key "" = w.Getenv key := by
  unfold getEnvOrDefault
  split
  · rfl
  · next hk => simp only [ne_eq, not_not] at hk; exact hk.symm

theorem loadConfig_eq (w : World) :
    loadConfig w =
      { SourceAPI := w.Getenv "SOURCE_API_KEY", SourceSecret := w.Getenv "SOURCE_SECRET_KEY",
        DestAPI := w.Getenv "DEST_API_KEY", DestSecret := w.Getenv "DEST_SECRET_KEY" } := by
  simp [loadConfig, getEnvOrDefault_empty]

theorem startup_plain (w : World) :
    ∀ e ∈ startup w, isNewApiClient e = false ∧ isNewPrivateWebsocket e = false ∧
      e ≠ Effect.Stream := by
  intro e he
  unfold startup at he
  cases hg : w.GodotenvLoad with
  | none =>
    simp [hg] at he
    rcases he with rfl | rfl <;> simp [isNewApiClient, isNewPrivateWebsocket]
  | some err =>
    simp [hg] at he
    rcases he with rfl | rfl | rfl <;> simp [isNewApiClient, isNewPrivateWebsocket]

theorem isHandlerEffect_copyOrder (w : World) (oc : OrderCopier) (hist : List Effect)
    (o : OrderChannelMessage) :
    ∀ e ∈ (copyOrder w oc hist o).1, isHandlerEffect e = true := by
  rcases copyOrder_cases w oc hist o with ⟨e, h⟩ | ⟨r, e, h⟩ | ⟨r, x, h⟩ <;>
    simp [h, isHandlerEffect, copyingLine]

theorem isHandlerEffect_SubscribeOrder (w : World) (h : OrderHandler) (hist : List Effect)
    (o : OrderChannelMessage) :
    ∀ e ∈ SubscribeOrder w h hist o, isHandlerEffect e = true := by
  have hc := isHandlerEffect_copyOrder w h.copier
    (hist ++ [Effect.Printf "Received order: %+v\n" [Arg.event o]]) o
  intro e he
  unfold SubscribeOrder at he
  simp only [] at he
  split at he
  · split at he
    · simp only [List.cons_append, List.mem_cons, List.mem_append, List.mem_singleton,
        List.not_mem_nil, or_false] at he
      rcases he with rfl | he | rfl
      · rfl
      · exact hc e he
      · rfl
    · simp only [List.mem_cons] at he
      rcases he with rfl | he
      · rfl
      · exact hc e he
  · simp only [List.mem_singleton] at he
    rw [he]; rfl

theorem isHandlerEffect_deliver (w : World) (h : OrderHandler)
    (es : List OrderChannelMessage) :
    ∀ (hist : List Effect), ∀ e ∈ deliver w h hist es, isHandlerEffect e = true := by
  induction es with
  | nil => intro hist e he; simp [deliver] at he
  | cons o rest ih =>
    intro hist e he
    simp only [deliver, List.mem_append] at he
    rcases he with he | he
    · exact isHandlerEffect_SubscribeOrder w h hist o e he
    · exact ih _ e he

theorem count_deliver_zero (w : World) (h : OrderHandler) (hist : List Effect)
    (es : List OrderChannelMessage) (x : Effect) (hx : isHandlerEffect x = false) :
    (deliver w h hist es).count x = 0 := by
  rw [List.count_eq_zero]
  intro hmem
  have := isHandlerEffect_deliver w h es hist x hmem
  rw [hx] at this
  exact Bool.noConfusion this

/-- The run of `startMonitoring` once the stream is reached. -/
theorem startMonitoring_established (w : World) (oc : OrderCopier) (hist : List Effect)
    (he : established w oc hist) :
    startMonitoring w oc hist =
      (Effect.NewPrivateWebsocket oc.config.SourceAPI oc.config.SourceSecret ::
        ([Effect.Connect, Effect.SubscribeOrders { copier := oc },
          Effect.Println "Started monitoring orders on source account...", Effect.Stream] ++
          deliver w { copier := oc }
            (hist ++ [Effect.NewPrivateWebsocket oc.config.SourceAPI oc.config.SourceSecret,
              Effect.Connect, Effect.SubscribeOrders { copier := oc },
              Effect.Println "Started monitoring orders on source account...", Effect.Stream])
            (w.Stream
              (hist ++ [Effect.NewPrivateWebsocket oc.config.SourceAPI oc.config.SourceSecret,
                Effect.Connect, Effect.SubscribeOrders { copier := oc },
                Effect.Println "Started monitoring orders on source account..."])).1) ++
        [Effect.Disconnect],
       streamResult w oc hist) := by
  obtain ⟨h1, h2, h3⟩ := he
  unfold startMonitoring streamResult
  simp only [h1, h2, h3]

/-- The run of `main` once the credentials are there. -/
theorem main_credentialsSet (w : World) (hc : credentialsSet w) :
    main w =
      match (startMonitoring w (mainCopier w) (mainHistory w)).2 with
      | some err =>
        (mainHistory w ++ (startMonitoring w (mainCopier w) (mainHistory w)).1 ++
          [Effect.LogFatalf "Failed to start monitoring: %v" [Arg.err err]],
         ExitStatus.fatal)
      | none =>
        (mainHistory w ++ (startMonitoring w (mainCopier w) (mainHistory w)).1 ++
          [Effect.Println "Order copier stopped", Effect.Cancel],
         ExitStatus.returned) := by
  obtain ⟨h1, h2, h3, h4⟩ := hc
  unfold main mainCopier mainHistory
  simp only [loadConfig_eq, h1, h2, h3, h4, or_self, if_false, NewOrderCopier]

/-- The run of `main` when a credential is missing. -/
theorem main_credentials_missing (w : World) (hc : ¬ credentialsSet w) :
    main w =
      (startup w ++ [Effect.LogFatal
        "Please set environment variables: SOURCE_API_KEY, SOURCE_SECRET_KEY, DEST_API_KEY, DEST_SECRET_KEY"],
       ExitStatus.fatal) := by
  have hc2 : w.Getenv "SOURCE_API_KEY" = "" ∨ w.Getenv "SOURCE_SECRET_KEY" = "" ∨
      w.Getenv "DEST_API_KEY" = "" ∨ w.Getenv "DEST_SECRET_KEY" = "" := by
    unfold credentialsSet at hc
    by_contra hn
    simp only [not_or] at hn
    exact hc ⟨hn.1, hn.2.1, hn.2.2.1, hn.2.2.2⟩
  unfold main
  simp only [loadConfig_eq, hc2, if_true]

/-- The three ways in which `startMonitoring` ends before the stream. -/
theorem startMonitoring_not_established (w : World) (oc : OrderCopier) (hist : List Effect)
    (he : ¬ established w oc hist) :
    (∃ err, startMonitoring w oc hist =
      ([Effect.NewPrivateWebsocket oc.config.SourceAPI oc.config.SourceSecret],
       some (Errorf "failed to create websocket: " err))) ∨
    (∃ err, startMonitoring w oc hist =
      ([Effect.NewPrivateWebsocket oc.config.SourceAPI oc.config.SourceSecret,
        Effect.Connect, Effect.Disconnect],
       some (Errorf "failed to connect websocket: " err))) ∨
    (∃ err, startMonitoring w oc hist =
      ([Effect.NewPrivateWebsocket oc.config.SourceAPI oc.config.SourceSecret,
        Effect.Connect, Effect.SubscribeOrders { copier := oc }, Effect.Disconnect],
       some (Errorf "failed to subscribe to orders: " err))) := by
  unfold established at he
  cases h1 : w.NewPrivateWebsocket hist oc.config.SourceAPI oc.config.SourceSecret with
  | some err =>
    refine Or.inl ⟨err, ?_⟩
    unfold startMonitoring
    simp only [h1]
  | none =>
    cases h2 : w.Connect
        (hist ++ [Effect.NewPrivateWebsocket oc.config.SourceAPI oc.config.SourceSecret]) with
    | some err =>
      refine Or.inr (Or.inl ⟨err, ?_⟩)
      unfold startMonitoring
      simp only [h1, h2, List.cons_append, List.nil_append]
    | none =>
      cases h3 : w.SubscribeOrders
          (hist ++ [Effect.NewPrivateWebsocket oc.config.SourceAPI oc.config.SourceSecret,
            Effect.Connect]) { copier := oc } with
      | some err =>
        refine Or.inr (Or.inr ⟨err, ?_⟩)
        unfold startMonitoring
        simp only [h1, h2, h3, List.cons_append, List.nil_append]
      | none => exact absurd ⟨h1, h2, h3⟩ he

theorem count_Stream_startMonitoring (w : World) (oc : OrderCopier) (hist : List Effect) :
    (established w oc hist → occurrences Effect.Stream (startMonitoring w oc hist).1 = 1) ∧
    (¬ established w oc hist → occurrences Effect.Stream (startMonitoring w oc hist).1 = 0) := by
  refine ⟨?_, ?_⟩
  · intro he
    rw [startMonitoring_established w oc hist he]
    simp [occurrences, List.count_cons, List.count_append,
      count_deliver_zero _ _ _ _ Effect.Stream rfl]
  · intro he
    rcases startMonitoring_not_established w oc hist he with ⟨e, h⟩ | ⟨e, h⟩ | ⟨e, h⟩ <;>
      simp [h, occurrences, List.count_cons]

theorem count_Stream_mainHistory (w : World) :
    occurrences Effect.Stream (mainHistory w) = 0 := by
  unfold occurrences
  rw [List.count_eq_zero]
  intro hm
  unfold mainHistory at hm
  rw [List.mem_append] at hm
  rcases hm with hm | hm
  · exact (startup_plain w _ hm).2.2 rfl
  · simp [NewOrderCopier] at hm

/-- C7: `main` goes on to construct the copier if and only if all four
credentials are non-empty, in the environment as well as in the loaded `Config`;
when one of them is empty (unset or set to the empty string) `main` ends with
`log.Fatal` right after the startup prints, without constructing an API client
and without creating the websocket with which `startMonitoring` begins. -/
theorem main_requires_credentials (w : World) :
    (credentialsSet w ↔
      ((loadConfig w).SourceAPI ≠ "" ∧ (loadConfig w).SourceSecret ≠ "" ∧
       (loadConfig w).DestAPI ≠ "" ∧ (loadConfig w).DestSecret ≠ "")) ∧
    ((∃ e ∈ (main w).1, isNewApiClient e = true) ↔ credentialsSet w) ∧
    (¬ credentialsSet w →
      main w =
        (startup w ++ [Effect.LogFatal
          "Please set environment variables: SOURCE_API_KEY, SOURCE_SECRET_KEY, DEST_API_KEY, DEST_SECRET_KEY"],
         ExitStatus.fatal) ∧
      (∀ e ∈ (main w).1, isNewApiClient e = false ∧ isNewPrivateWebsocket e = false)) := by
  have hmiss : ¬ credentialsSet w →
      ∀ e ∈ (main w).1, isNewApiClient e = false ∧ isNewPrivateWebsocket e = false := by
    intro hc e he
    rw [main_credentials_missing w hc] at he
    simp only [List.mem_append, List.mem_singleton] at he
    rcases he with he | rfl
    · exact ⟨(startup_plain w e he).1, (startup_plain w e he).2.1⟩
    · exact ⟨rfl, rfl⟩
  refine ⟨?_, ?_, ?_⟩
  · rw [loadConfig_eq]
    rfl
  · constructor
    · rintro ⟨e, he, hne⟩
      by_contra hc
      rw [(hmiss hc e he).1] at hne
      exact Bool.noConfusion hne
    · intro hc
      refine ⟨Effect.NewApiClient (loadConfig w).SourceAPI (loadConfig w).SourceSecret, ?_, rfl⟩
      have hm : Effect.NewApiClient (loadConfig w).SourceAPI (loadConfig w).SourceSecret ∈
          mainHistory w := by
        simp [mainHistory, NewOrderCopier]
      rw [main_credentialsSet w hc]
      split <;> simp [hm]
  · intro hc
    exact ⟨main_credentials_missing w hc, hmiss hc⟩

/-- Witness of C7: with the destination key unset, `main` ends with `log.Fatal`
after two effects. -/
theorem main_requires_credentials_witness :
    ¬ credentialsSet missingKeyWorld ∧
    main missingKeyWorld =
      ([Effect.Println "Starting Bitunix Order Copier...", Effect.GodotenvLoad,
        Effect.LogFatal
          "Please set environment variables: SOURCE_API_KEY, SOURCE_SECRET_KEY, DEST_API_KEY, DEST_SECRET_KEY"],
       ExitStatus.fatal) :=
  ⟨fun hc => hc.2.2.1 rfl,
   ((main_requires_credentials missingKeyWorld).2.2 (fun hc => hc.2.2.1 rfl)).1⟩

/-- C8: when the creation of the websocket, `Connect` or `SubscribeOrders`
returns an error, `startMonitoring` returns the error whose text names the
failed step and carries the cause, and it has run the steps up to the failed one
only (followed by the deferred `Disconnect` once the websocket exists): no
`Connect` after a failed creation, no `SubscribeOrders` after a failed
`Connect`, and `Stream` in none of the three cases.  In `main` such a failure
ends the process with `log.Fatalf`. -/
theorem startMonitoring_establishment_failure (w : World) (oc : OrderCopier)
    (hist : List Effect) :
    (∀ err, w.NewPrivateWebsocket hist oc.config.SourceAPI oc.config.SourceSecret = some err →
      startMonitoring w oc hist =
        ([Effect.NewPrivateWebsocket oc.config.SourceAPI oc.config.SourceSecret],
         some ⟨"failed to create websocket: " ++ err.msg⟩)) ∧
    (∀ err, w.NewPrivateWebsocket hist oc.config.SourceAPI oc.config.SourceSecret = none →
      w.Connect
        (hist ++ [Effect.NewPrivateWebsocket oc.config.SourceAPI oc.config.SourceSecret]) =
          some err →
      startMonitoring w oc hist =
        ([Effect.NewPrivateWebsocket oc.config.SourceAPI oc.config.SourceSecret,
          Effect.Connect, Effect.Disconnect],
         some ⟨"failed to connect websocket: " ++ err.msg⟩)) ∧
    (∀ err, w.NewPrivateWebsocket hist oc.config.SourceAPI oc.config.SourceSecret = none →
      w.Connect
        (hist ++ [Effect.NewPrivateWebsocket oc.config.SourceAPI oc.config.SourceSecret]) =
          none →
      w.SubscribeOrders
        (hist ++ [Effect.NewPrivateWebsocket oc.config.SourceAPI oc.config.SourceSecret,
          Effect.Connect]) { copier := oc } = some err →
      startMonitoring w oc hist =
        ([Effect.NewPrivateWebsocket oc.config.SourceAPI oc.config.SourceSecret,
          Effect.Connect, Effect.SubscribeOrders { copier := oc }, Effect.Disconnect],
         some ⟨"failed to subscribe to orders: " ++ err.msg⟩)) ∧
    (¬ established w oc hist →
      (startMonitoring w oc hist).2 ≠ none ∧
      Effect.Stream ∉ (startMonitoring w oc hist).1) ∧
    (credentialsSet w → ¬ established w (mainCopier w) (mainHistory w) →
      (main w).2 = ExitStatus.fatal ∧ Effect.Stream ∉ (main w).1) := by
  refine ⟨?_, ?_, ?_, ?_, ?_⟩
  · intro err h1
    unfold startMonitoring
    simp only [h1, Errorf]
  · intro err h1 h2
    unfold startMonitoring
    simp only [h1, h2, Errorf, List.cons_append, List.nil_append]
  · intro err h1 h2 h3
    unfold startMonitoring
    simp only [h1, h2, h3, Errorf, List.cons_append, List.nil_append]
  · intro he
    rcases startMonitoring_not_established w oc hist he with ⟨e, h⟩ | ⟨e, h⟩ | ⟨e, h⟩ <;>
      simp [h]
  · intro hc he
    have h0 := (count_Stream_startMonitoring w (mainCopier w) (mainHistory w)).2 he
    have hm := count_Stream_mainHistory w
    unfold occurrences at h0 hm
    rw [List.count_eq_zero] at h0 hm
    rw [main_credentialsSet w hc]
    rcases startMonitoring_not_established w (mainCopier w) (mainHistory w) he with
      ⟨e, h⟩ | ⟨e, h⟩ | ⟨e, h⟩ <;>
    · rw [h] at h0
      rw [h]
      refine ⟨rfl, ?_⟩
      show Effect.Stream ∉ mainHistory w ++ _ ++ [_]
      simp only [List.mem_append, not_or]
      exact ⟨⟨hm, h0⟩, by simp⟩

/-- Witness of C8: a refused connection. -/
theorem startMonitoring_establishment_failure_witness :
    startMonitoring connectFailsWorld sampleCopier [] =
      ([Effect.NewPrivateWebsocket "src-key" "src-secret", Effect.Connect, Effect.Disconnect],
       some ⟨"failed to connect websocket: dial timeout"⟩) :=
  (startMonitoring_establishment_failure connectFailsWorld sampleCopier []).2.1
    ⟨"dial timeout"⟩ rfl rfl

/-- C9, counterexample: when the websocket cannot be created, `startMonitoring`
returns an error and `Disconnect` is not called. -/
theorem startMonitoring_no_disconnect_when_creation_fails :
    startMonitoring createFailsWorld sampleCopier [] =
      ([Effect.NewPrivateWebsocket "src-key" "src-secret"],
       some ⟨"failed to create websocket: bad credentials"⟩) ∧
    Effect.Disconnect ∉ (startMonitoring createFailsWorld sampleCopier []).1 := by
  decide

/-- C9, amended: once the websocket has been created, `Disconnect` is called
exactly once and is the last action of `startMonitoring`, for every combination
of outcomes of `Connect`, `SubscribeOrders` and `Stream`; when the creation
fails there is no connection and `Disconnect` is not called. -/
theorem startMonitoring_disconnects_once_created (w : World) (oc : OrderCopier)
    (hist : List Effect) :
    (w.NewPrivateWebsocket hist oc.config.SourceAPI oc.config.SourceSecret = none →
      (startMonitoring w oc hist).1.getLast? = some Effect.Disconnect ∧
      occurrences Effect.Disconnect (startMonitoring w oc hist).1 = 1) ∧
    (w.NewPrivateWebsocket hist oc.config.SourceAPI oc.config.SourceSecret ≠ none →
      Effect.Disconnect ∉ (startMonitoring w oc hist).1) := by
  refine ⟨?_, ?_⟩
  · intro h1
    cases h2 : w.Connect
        (hist ++ [Effect.NewPrivateWebsocket oc.config.SourceAPI oc.config.SourceSecret]) with
    | some err =>
      unfold startMonitoring
      simp only [h1, h2]
      simp [occurrences, List.count_cons]
    | none =>
      cases h3 : w.SubscribeOrders
          (hist ++ [Effect.NewPrivateWebsocket oc.config.SourceAPI oc.config.SourceSecret,
            Effect.Connect]) { copier := oc } with
      | some err =>
        unfold startMonitoring
        simp only [h1, h2, h3]
        simp [occurrences, List.count_cons]
      | none =>
        rw [startMonitoring_established w oc hist ⟨h1, h2, h3⟩]
        refine ⟨?_, ?_⟩
        · rw [← List.cons_append, List.getLast?_append]
          simp
        · simp [occurrences, List.count_cons, List.count_append,
            count_deliver_zero _ _ _ _ Effect.Disconnect rfl]
  · intro h1
    cases hn : w.NewPrivateWebsocket hist oc.config.SourceAPI oc.config.SourceSecret with
    | none => exact absurd hn h1
    | some err =>
      unfold startMonitoring
      simp only [hn]
      simp

/-- Witness of the amended C9: a refused connection is still closed. -/
theorem startMonitoring_disconnects_once_created_witness :
    (startMonitoring connectFailsWorld sampleCopier []).1.getLast? = some Effect.Disconnect ∧
    occurrences Effect.Disconnect (startMonitoring connectFailsWorld sampleCopier []).1 = 1 :=
  (startMonitoring_disconnects_once_created connectFailsWorld sampleCopier []).1 rfl

/-- C10: once creation, connection and subscription have succeeded,
`startMonitoring` returns exactly what `ws.Stream` returned, having called it
once.  In `main`, which calls `Stream` at most once in any run, a stream that
ends with an error ends the process with `log.Fatalf` on that error, and a
stream that ends without error lets `main` print its last line and return. -/
theorem startMonitoring_returns_stream_result (w : World) (oc : OrderCopier)
    (hist : List Effect) :
    (established w oc hist →
      (startMonitoring w oc hist).2 = streamResult w oc hist ∧
      occurrences Effect.Stream (startMonitoring w oc hist).1 = 1) ∧
    occurrences Effect.Stream (main w).1 ≤ 1 ∧
    (credentialsSet w → established w (mainCopier w) (mainHistory w) →
      (∀ err, streamResult w (mainCopier w) (mainHistory w) = some err →
        (main w).2 = ExitStatus.fatal ∧
        (main w).1.getLast? =
          some (Effect.LogFatalf "Failed to start monitoring: %v" [Arg.err err]) ∧
        occurrences Effect.Stream (main w).1 = 1) ∧
      (streamResult w (mainCopier w) (mainHistory w) = none →
        (main w).2 = ExitStatus.returned ∧
        Effect.Println "Order copier stopped" ∈ (main w).1 ∧
        occurrences Effect.Stream (main w).1 = 1)) := by
  have hsm : ∀ (c : OrderCopier) (t : List Effect), established w c t →
      (startMonitoring w c t).2 = streamResult w c t := by
    intro c t he
    rw [startMonitoring_established w c t he]
  have hcount : ∀ x : Effect, x ≠ Effect.Stream →
      occurrences Effect.Stream
        (mainHistory w ++ (startMonitoring w (mainCopier w) (mainHistory w)).1 ++ [x]) =
      occurrences Effect.Stream (startMonitoring w (mainCopier w) (mainHistory w)).1 := by
    intro x hx
    have hm := count_Stream_mainHistory w
    unfold occurrences at hm ⊢
    rw [List.count_append, List.count_append, hm, List.count_singleton]
    have hx2 : (x == Effect.Stream) = false := by simpa using hx
    simp [hx2]
  refine ⟨?_, ?_, ?_⟩
  · intro he
    exact ⟨hsm oc hist he, (count_Stream_startMonitoring w oc hist).1 he⟩
  · by_cases hc : credentialsSet w
    · have hle : occurrences Effect.Stream
          (startMonitoring w (mainCopier w) (mainHistory w)).1 ≤ 1 := by
        by_cases he : established w (mainCopier w) (mainHistory w)
        · rw [(count_Stream_startMonitoring w _ _).1 he]
        · rw [(count_Stream_startMonitoring w _ _).2 he]; exact Nat.zero_le 1
      rw [main_credentialsSet w hc]
      split
      · next err hr =>
        show occurrences Effect.Stream (mainHistory w ++ _ ++ [_]) ≤ 1
        rw [hcount _ (by simp)]
        exact hle
      · next hr =>
        show occurrences Effect.Stream (mainHistory w ++ _ ++ [_, _]) ≤ 1
        rw [show ∀ (a b : List Effect) (x y : Effect), a ++ b ++ [x, y] = (a ++ b ++ [x]) ++ [y]
          by intros; simp]
        unfold occurrences
        rw [List.count_append]
        have h1 := hcount (Effect.Println "Order copier stopped") (by simp)
        unfold occurrences at h1 hle
        rw [h1]
        simpa using hle
    · rw [main_credentials_missing w hc]
      show occurrences Effect.Stream (startup w ++ [_]) ≤ 1
      unfold occurrences
      rw [List.count_append]
      have h0 : (startup w).count Effect.Stream = 0 := by
        rw [List.count_eq_zero]
        intro hm
        exact (startup_plain w _ hm).2.2 rfl
      rw [h0]
      simp
  · intro hc he
    have hr := hsm _ _ he
    have h1 := (count_Stream_startMonitoring w _ _).1 he
    refine ⟨?_, ?_⟩
    · intro err hs
      rw [hs] at hr
      rw [main_credentialsSet w hc]
      simp only [hr]
      refine ⟨trivial, ?_, ?_⟩
      · rw [List.getLast?_append]
        simp
      · rw [hcount _ (by simp)]
        exact h1
    · intro hs
      rw [hs] at hr
      rw [main_credentialsSet w hc]
      simp only [hr]
      refine ⟨trivial, by simp, ?_⟩
      rw [show ∀ (a b : List Effect) (x y : Effect), a ++ b ++ [x, y] = (a ++ b ++ [x]) ++ [y]
        by intros; simp]
      unfold occurrences
      rw [List.count_append]
      have h2 := hcount (Effect.Println "Order copier stopped") (by simp)
      unfold occurrences at h2 h1
      rw [h2, h1]
      simp

/-- Witness of C10: a stream that ends with a transport error ends the run. -/
theorem startMonitoring_returns_stream_result_witness :
    (startMonitoring streamFailsWorld sampleCopier []).2 = some ⟨"connection reset"⟩ ∧
    (main streamFailsWorld).2 = ExitStatus.fatal ∧
    (main streamFailsWorld).1.getLast? =
      some (Effect.LogFatalf "Failed to start monitoring: %v"
        [Arg.err ⟨"connection reset"⟩]) :=
  ⟨((startMonitoring_returns_stream_result streamFailsWorld sampleCopier []).1
      ⟨rfl, rfl, rfl⟩).1,
   (((startMonitoring_returns_stream_result streamFailsWorld sampleCopier []).2.2
      ⟨by decide, by decide, by decide, by decide⟩ ⟨rfl, rfl, rfl⟩).1 ⟨"connection reset"⟩
      rfl).1,
   (((startMonitoring_returns_stream_result streamFailsWorld sampleCopier []).2.2
      ⟨by decide, by decide, by decide, by decide⟩ ⟨rfl, rfl, rfl⟩).1 ⟨"connection reset"⟩
      rfl).2.1⟩

end BitunixCopier
